import Mathlib

/-!
Shallow embedding of the core components of the golang-british repository:
the `appmode` package (`src/appmode/app_mode.go`), the global-singleton
initialization of the `logger` package (`src/logger/logger.go`), and the gRPC
error-translation interceptor (`src/grpc/middleware/grpcerror/grpc_error.go`),
together with the parts of the `google.golang.org/grpc/status` package
(v1.50.0) that the interceptor calls.

Go errors form an open interface universe; the embedding fixes a closed
universe `GoErr` that covers every capability combination the interceptor
branches on: the `context.Canceled` / `context.DeadlineExceeded` sentinels
(compared by identity in the source), errors produced by the `status`
package, user-defined errors optionally exposing a `GRPCStatus() *Status`
method and/or a `Details() []proto.Message` method, and a one-level
`fmt.Errorf("...%w", ...)`-style wrapper exposing `Unwrap()`.
Go `proto.Message` detail payloads are modelled as opaque `Nat` tokens and
their `Any`-marshalling is assumed to succeed (well-formed messages).
Observable logging effects are returned as an explicit list of entries.
-/

/-- A gRPC `*status.Status` value: a code, a message and detail payloads. -/
structure Status where
  code : Nat
  message : String
  details : List Nat
deriving DecidableEq, Repr

/-- `codes.Code.String()` from `google.golang.org/grpc/codes`, used by the
status-package error rendering. -/
def codeString (c : Nat) : String :=
  if c = 0 then "OK"
  else if c = 1 then "Canceled"
  else if c = 2 then "Unknown"
  else if c = 3 then "InvalidArgument"
  else if c = 4 then "DeadlineExceeded"
  else if c = 5 then "NotFound"
  else if c = 6 then "AlreadyExists"
  else if c = 7 then "PermissionDenied"
  else if c = 8 then "ResourceExhausted"
  else if c = 9 then "FailedPrecondition"
  else if c = 10 then "Aborted"
  else if c = 11 then "OutOfRange"
  else if c = 12 then "Unimplemented"
  else if c = 13 then "Internal"
  else if c = 14 then "Unavailable"
  else if c = 15 then "DataLoss"
  else if c = 16 then "Unauthenticated"
  else "Code(" ++ toString c ++ ")"

/-- The closed universe of Go `error` values the interceptor can receive or
produce (a Go `nil` error is `Option.none` of this type at use sites):
* `canceled` — the `context.Canceled` sentinel;
* `deadlineExceeded` — the `context.DeadlineExceeded` sentinel;
* `statusErr st` — an error produced by the grpc status package
  (`(*Status).Err()` / `status.Error`): implements `GRPCStatus()`;
* `custom msg grpcStatus details` — a user-defined error whose `Error()`
  returns `msg`, implementing `GRPCStatus() *Status` when
  `grpcStatus = some st` and `Details() []proto.Message` when
  `details = some ds`;
* `wrap pre inner` — a `fmt.Errorf`-style wrapper whose `Error()` prepends
  `pre` and whose `Unwrap()` returns `inner`. -/
inductive GoErr where
  | canceled : GoErr
  | deadlineExceeded : GoErr
  | statusErr (st : Status) : GoErr
  | custom (msg : String) (grpcStatus : Option Status) (details : Option (List Nat)) : GoErr
  | wrap (pre : String) (inner : GoErr) : GoErr
deriving DecidableEq, Repr

/-- The `Error()` rendering of each error. The status-package error renders
as `rpc error: code = <code> desc = <message>`; a wrapper prepends its
call-site context to the text of its cause. -/
def errMsg : GoErr → String
  | .canceled => "context canceled"
  | .deadlineExceeded => "context deadline exceeded"
  | .statusErr st => "rpc error: code = " ++ codeString st.code ++ " desc = " ++ st.message
  | .custom msg _ _ => msg
  | .wrap pre inner => pre ++ errMsg inner

/-- `errors.Unwrap`: the immediate cause when the error has an `Unwrap()`
method, otherwise nil. Only the `wrap` constructor exposes `Unwrap()`. -/
def errorsUnwrap : GoErr → Option GoErr
  | .wrap _ inner => some inner
  | _ => none

/-- `unwrapErr` from grpc_error.go: one-level unwrap, falling back to the
error itself when it has no cause. -/
def unwrapErr (err : GoErr) : GoErr :=
  match errorsUnwrap err with
  | some wrappedErr => wrappedErr
  | none => err

/-- The `GRPCStatus() *Status` capability: the type assertion
`err.(interface{ GRPCStatus() *Status })` used by `status.FromError`
(grpc-go v1.50.0 uses a plain one-level type assertion, not `errors.As`). -/
def grpcStatusOf : GoErr → Option Status
  | .statusErr st => some st
  | .custom _ (some st) _ => some st
  | _ => none

/-- `status.FromError` (grpc-go v1.50.0) applied to a non-nil error: the
carried status and `true` when the error implements `GRPCStatus()`,
otherwise a fresh `Unknown`-code status with the text of the error and `false`. -/
def fromError (err : GoErr) : Status × Bool :=
  match grpcStatusOf err with
  | some st => (st, true)
  | none => (⟨2, errMsg err, []⟩, false)

/-- `status.FromContextError` (grpc-go v1.50.0) applied to a non-nil error:
`DeadlineExceeded` (4) for the deadline sentinel, `Canceled` (1) for the
cancellation sentinel, `Unknown` (2) otherwise, always carrying the
text of the error. -/
def fromContextError (err : GoErr) : Status :=
  if err = .deadlineExceeded then ⟨4, errMsg err, []⟩
  else if err = .canceled then ⟨1, errMsg err, []⟩
  else ⟨2, errMsg err, []⟩

/-- `(*Status).Err()`: nil when the code is `OK` (0), otherwise a
status-package error carrying the status. -/
def Status.err (st : Status) : Option GoErr :=
  if st.code = 0 then none else some (.statusErr st)

/-- `status.Error(c, msg)` = `status.New(c, msg).Err()`. -/
def statusError (code : Nat) (msg : String) : Option GoErr :=
  Status.err ⟨code, msg, []⟩

/-- The `Details() []proto.Message` capability: the type assertion
`wrappedErr.(interface{ Details() []proto.Message })` in GRPCError. -/
def detailsOf : GoErr → Option (List Nat)
  | .custom _ _ (some ds) => some ds
  | _ => none

/-- `(*Status).WithDetails`: fails (returns a non-nil error, modelled as
`none`) when the code is `OK`, otherwise appends the marshalled payloads. -/
def withDetails (st : Status) (ds : List Nat) : Option Status :=
  if st.code = 0 then none else some ⟨st.code, st.message, st.details ++ ds⟩

/-- Severity of a structured log entry emitted by the interceptor. -/
inductive LogLevel where
  | warn : LogLevel
  | error : LogLevel
deriving DecidableEq, Repr

/-- One structured log entry: severity, the error attached via
`logger.WithFields(logger.Fields{"error": err})`, and the entry message. -/
structure LogEntry where
  level : LogLevel
  errField : GoErr
  message : String
deriving DecidableEq, Repr

/-- `grpcErrorWrapper` from grpc_error.go: the fixed configuration of the
interceptor. `internalServerErr` is the configured catch-all error. -/
structure grpcErrorWrapper where
  development : Bool
  internalServerErr : GoErr
deriving DecidableEq, Repr

/-- The body of `GRPCError` after `wrappedErr := unwrapErr(err)` has been
computed, mirroring grpc_error.go lines 51-77 statement by statement.
Returns the error handed back to the transport (`none` = Go `nil`) paired
with the structured log entries emitted during the call. -/
def grpcErrorBody (w : grpcErrorWrapper) (err : GoErr) (wrappedErr : GoErr) :
    Option GoErr × List LogEntry :=
  if wrappedErr = .canceled ∨ wrappedErr = .deadlineExceeded then
    ((fromContextError wrappedErr).err, [])
  else
    let p := fromError wrappedErr
    let stt0 := p.1
    let ok := p.2
    if !ok then
      ((fromContextError wrappedErr).err, [])
    else
      let stt :=
        match detailsOf wrappedErr with
        | some ds =>
          match withDetails stt0 ds with
          | some s => s
          | none => stt0
        | none => stt0
      if w.development then
        (statusError stt.code (errMsg err), [⟨.warn, err, "getting error..."⟩])
      else if ok then
        (stt.err, [])
      else
        (some w.internalServerErr, [⟨.error, err, "unexpected error..."⟩])

/-- `(grpcErrorWrapper).GRPCError` from grpc_error.go: unwrap one level,
then translate. -/
def grpcErrorWrapper.GRPCError (w : grpcErrorWrapper) (err : GoErr) :
    Option GoErr × List LogEntry :=
  grpcErrorBody w err (unwrapErr err)

/-- `UnaryServerInterceptor` from grpc_error.go, applied to the outcome
`(res, err)` of the wrapped handler: on a nil handler error the response
passes through unchanged; otherwise the response is dropped and the
translated error is returned. The log-entry list records every structured
entry emitted during the call. -/
def UnaryServerInterceptor {α : Type} (development : Bool) (internalServerErr : GoErr)
    (res : Option α) (err : Option GoErr) : (Option α × Option GoErr) × List LogEntry :=
  let w : grpcErrorWrapper := ⟨development, internalServerErr⟩
  match err with
  | some e =>
    let r := w.GRPCError e
    ((none, r.1), r.2)
  | none => ((res, none), [])

/-- The status code carried by a returned error, when it is a
status-package error. -/
def statusCodeOf : Option GoErr → Option Nat
  | some (.statusErr st) => some st.code
  | _ => none

/-! ## Logger package (`src/logger/logger.go`) -/

/-- `Configuration` from logger.go. -/
structure Configuration where
  EnableConsole : Bool
  ConsoleJSONFormat : Bool
  ConsoleLevel : String
  EnableFile : Bool
  FileJSONFormat : Bool
  FileLevel : String
  FileLocation : String
deriving DecidableEq, Repr

/-- `LoggerBackend` is a Go `int`; values other than the two named
constants fall into the `default` switch case. -/
abbrev LoggerBackend := Nat

/-- `LoggerBackendZap` constant. -/
def LoggerBackendZap : LoggerBackend := 0

/-- `LoggerBackendLogrus` constant. -/
def LoggerBackendLogrus : LoggerBackend := 1

/-- A `Logger` interface value; `nilLogger` is the Go `nil` interface
value, the other constructors identify a concrete backend instance by the
configuration it was built from. -/
inductive LoggerValue where
  | nilLogger : LoggerValue
  | zapInst (cfg : Configuration) : LoggerValue
  | logrusInst (cfg : Configuration) : LoggerValue
deriving DecidableEq, Repr

/-- The `errInvalidLoggerInstance` sentinel message. -/
def errInvalidLoggerInstance : String := "invalid logger instance"

/-- Modelled from the spec: `newZapLogger` lives in the zap backend source
file, which is absent from `src/`. Per the spec, each backend maps the
recognized level set and format flags from the configuration onto its
native settings and constructs a logger; the only construction failure the
spec specifies is an unrecognized backend selector, so zap construction
itself succeeds and yields a backend instance determined by the
configuration. -/
def newZapLogger (config : Configuration) : LoggerValue × Option String :=
  (.zapInst config, none)

/-- Modelled from the spec: `newLogrusLogger` lives in the logrus backend
source file, which is absent from `src/`; same modelling as
`newZapLogger`. -/
def newLogrusLogger (config : Configuration) : LoggerValue × Option String :=
  (.logrusInst config, none)

/-- `DefaultLogger` from logger.go: a zap logger over the console-only,
human-readable, info-level configuration (construction error ignored).
Unlisted Go struct fields are zero-valued. -/
def DefaultLogger : LoggerValue :=
  (newZapLogger ⟨true, false, "info", false, false, "", ""⟩).1

/-- `NewLogger` from logger.go: construct an independent logger; nil
logger plus the sentinel error for an unrecognized backend. -/
def NewLogger (config : Configuration) (backend : LoggerBackend) :
    LoggerValue × Option String :=
  if backend = LoggerBackendZap then newZapLogger config
  else if backend = LoggerBackendLogrus then newLogrusLogger config
  else (.nilLogger, some errInvalidLoggerInstance)

/-- The package-level mutable state of the logger package: the global
`log` variable and whether `once.Do` has already consumed its one shot. -/
structure LoggerState where
  log : LoggerValue
  onceDone : Bool
deriving DecidableEq, Repr

/-- The state at process start: `var log = DefaultLogger()` and an unused
`sync.Once`. -/
def initialLoggerState : LoggerState := ⟨DefaultLogger, false⟩

/-- `InitLogger` from logger.go as a state transformer: inside `once.Do`
(which runs only when the once is still unused and consumes it in every
branch), the switch assigns the global `log` via `NewLogger` for the two
known backends and only sets the sentinel error otherwise; the function
then returns the global `log` together with the local `err`. -/
def InitLogger (st : LoggerState) (config : Configuration) (backend : LoggerBackend) :
    LoggerState × LoggerValue × Option String :=
  if st.onceDone then (st, st.log, none)
  else if backend = LoggerBackendZap then
    let r := NewLogger config backend
    (⟨r.1, true⟩, r.1, r.2)
  else if backend = LoggerBackendLogrus then
    let r := NewLogger config backend
    (⟨r.1, true⟩, r.1, r.2)
  else
    (⟨st.log, true⟩, st.log, some errInvalidLoggerInstance)

/-! ## App mode package (`src/appmode/app_mode.go`) -/

/-- `AppMode` enum from app_mode.go. -/
inductive AppMode where
  | Development : AppMode
  | Production : AppMode
deriving DecidableEq, Repr

/-- Modelled from the spec: `AppModeString` is enumer-generated code
absent from `src/`; by the convention of that generator it recognizes exactly
the declared enum value names, here `Development` and `Production` from
app_mode.go, and reports an error (modelled as `none`) for any other
string. -/
def AppModeString (s : String) : Option AppMode :=
  if s = "Development" then some .Development
  else if s = "Production" then some .Production
  else none

/-- `GetAppMode` from app_mode.go: parse the string, defaulting to
`Development` when parsing fails. -/
def GetAppMode (appMode : String) : AppMode :=
  match AppModeString appMode with
  | some mode => mode
  | none => .Development

/-- A concrete configuration value used to instantiate theorems on
concrete inputs (same field values as the default configuration). -/
def testConfig : Configuration := ⟨true, false, "info", false, false, "", ""⟩

/-! ## Theorems -/

/-- Claim C1 (code-bug evidence): in production mode, the unclassifiable
error "boom" is NOT replaced by the configured catch-all internal-server
error; the interceptor instead returns the `Unknown`-code context-error
conversion that carries the original text "boom", because the
classification-failure branch returns before the production catch-all
branch can run. -/
theorem C1_prod_unclassified_returns_original_text :
    grpcErrorWrapper.GRPCError ⟨false, .custom "internal server error" none none⟩
        (.custom "boom" none none)
      = (some (.statusErr ⟨2, "boom", []⟩), []) ∧
    (Status.mk 2 "boom" []).message
      ≠ errMsg (.custom "internal server error" none none) := by
  exact ⟨rfl, by decide⟩

/-- Claim C2 counterexample: a first call to `InitLogger` with the unknown
backend selector 5 does return the sentinel "invalid logger instance"
error, but the logger returned alongside it is the pre-existing global
default logger, not nil, because `InitLogger` returns the package-level
`log` variable unconditionally. -/
theorem C2_counterexample :
    (InitLogger initialLoggerState testConfig 5).2.2 = some errInvalidLoggerInstance ∧
    (InitLogger initialLoggerState testConfig 5).2.1 ≠ LoggerValue.nilLogger := by
  exact ⟨rfl, by decide⟩

/-- Claim C2 (amended): a first call to `InitLogger` with a backend
selector matching no known backend returns the sentinel
"invalid logger instance" error together with the pre-existing global
default logger (which is not nil), consuming the once-guard. -/
theorem C2_first_call_unknown_backend (config : Configuration) (backend : LoggerBackend)
    (h0 : backend ≠ LoggerBackendZap) (h1 : backend ≠ LoggerBackendLogrus) :
    InitLogger initialLoggerState config backend
      = (⟨DefaultLogger, true⟩, DefaultLogger, some errInvalidLoggerInstance) ∧
    DefaultLogger ≠ LoggerValue.nilLogger := by
  refine ⟨?_, by decide⟩
  simp [InitLogger, initialLoggerState, h0, h1]

/-- Witness for C2 at the concrete unknown backend 5. -/
theorem C2_first_call_unknown_backend_witness :
    (5 : LoggerBackend) ≠ LoggerBackendZap ∧ (5 : LoggerBackend) ≠ LoggerBackendLogrus ∧
    (InitLogger initialLoggerState testConfig 5
        = (⟨DefaultLogger, true⟩, DefaultLogger, some errInvalidLoggerInstance) ∧
      DefaultLogger ≠ LoggerValue.nilLogger) :=
  ⟨by decide, by decide, C2_first_call_unknown_backend testConfig 5 (by decide) (by decide)⟩

/-- Claim C3: once a first call to `InitLogger` has succeeded, every
subsequent call — with any configuration and any backend selector,
including invalid ones — returns the identical logger instance the first
call produced, a nil error, and leaves the package state unchanged (so
the same holds for every later call as well). -/
theorem C3_singleton_after_first_success (config : Configuration) (backend : LoggerBackend)
    (hsucc : (InitLogger initialLoggerState config backend).2.2 = none)
    (config2 : Configuration) (backend2 : LoggerBackend) :
    InitLogger (InitLogger initialLoggerState config backend).1 config2 backend2
      = ((InitLogger initialLoggerState config backend).1,
         (InitLogger initialLoggerState config backend).2.1, none) := by
  by_cases h0 : backend = LoggerBackendZap
  · subst h0
    simp [InitLogger, initialLoggerState, NewLogger, newZapLogger]
  · by_cases h1 : backend = LoggerBackendLogrus
    · subst h1
      simp [InitLogger, initialLoggerState, NewLogger, newLogrusLogger,
        LoggerBackendZap, LoggerBackendLogrus]
    · exfalso
      simp [InitLogger, initialLoggerState, h0, h1] at hsucc

/-- Witness for C3: first call with the zap backend succeeds, a second
call with the invalid backend 99 returns the identical instance. -/
theorem C3_singleton_witness :
    (InitLogger initialLoggerState testConfig LoggerBackendZap).2.2 = none ∧
    InitLogger (InitLogger initialLoggerState testConfig LoggerBackendZap).1 testConfig 99
      = ((InitLogger initialLoggerState testConfig LoggerBackendZap).1,
         (InitLogger initialLoggerState testConfig LoggerBackendZap).2.1, none) :=
  ⟨rfl, C3_singleton_after_first_success testConfig LoggerBackendZap rfl testConfig 99⟩

/-- Claim C4: whenever the one-level unwrap of the input error is the
cancellation sentinel or the deadline-exceeded sentinel, `GRPCError`
returns the corresponding standardized context-error status (code 1 resp.
code 4) with no log entry, for every wrapper configuration — hence in both
development and production mode, and never the configured catch-all. -/
theorem C4_context_errors (w : grpcErrorWrapper) (err : GoErr) :
    (unwrapErr err = .canceled →
      w.GRPCError err = (some (.statusErr ⟨1, "context canceled", []⟩), [])) ∧
    (unwrapErr err = .deadlineExceeded →
      w.GRPCError err = (some (.statusErr ⟨4, "context deadline exceeded", []⟩), [])) := by
  constructor
  · intro h
    simp [grpcErrorWrapper.GRPCError, grpcErrorBody, h, fromContextError, Status.err, errMsg]
  · intro h
    simp [grpcErrorWrapper.GRPCError, grpcErrorBody, h, fromContextError, Status.err, errMsg]

/-- Witness for C4 at the cancellation sentinel in production mode. -/
theorem C4_context_errors_witness :
    grpcErrorWrapper.GRPCError ⟨false, .custom "internal server error" none none⟩ .canceled
      = (some (.statusErr ⟨1, "context canceled", []⟩), []) :=
  (C4_context_errors ⟨false, .custom "internal server error" none none⟩ .canceled).1 rfl

/-- Claim C5: when the one-level unwrap is neither sentinel and
classification via `status.FromError` fails, `GRPCError` returns exactly
the context-error conversion of the unwrapped error (the same
`status.FromContextError` path as the cancellation/deadline branch), with
no log entry — not a dedicated unknown-error status and not the
catch-all. -/
theorem C5_unclassified_context_fallback (w : grpcErrorWrapper) (err : GoErr)
    (h1 : unwrapErr err ≠ .canceled) (h2 : unwrapErr err ≠ .deadlineExceeded)
    (h3 : (fromError (unwrapErr err)).2 = false) :
    w.GRPCError err = ((fromContextError (unwrapErr err)).err, []) := by
  simp [grpcErrorWrapper.GRPCError, grpcErrorBody, h1, h2, h3]

/-- Witness for C5 at a plain unclassifiable error in production mode. -/
theorem C5_unclassified_witness :
    grpcErrorWrapper.GRPCError ⟨false, .custom "internal server error" none none⟩
        (.custom "boom" none none)
      = ((fromContextError (unwrapErr (.custom "boom" none none))).err, []) :=
  C5_unclassified_context_fallback ⟨false, .custom "internal server error" none none⟩
    (.custom "boom" none none) (by decide) (by decide) rfl

/-- Claim C6 (code-bug evidence): in development mode, for the
unclassifiable wrapped error with rendered text "wrapped: boom", the
interceptor returns a status whose message is "boom" — the text of the
unwrapped cause, not the original pre-unwrap text — and emits zero log
entries (no warning-level entry), because the classification-failure
branch returns before the development branch can run. -/
theorem C6_dev_unclassified_eval :
    grpcErrorWrapper.GRPCError ⟨true, .custom "internal server error" none none⟩
        (.wrap "wrapped: " (.custom "boom" none none))
      = (some (.statusErr ⟨2, "boom", []⟩), []) ∧
    errMsg (.wrap "wrapped: " (.custom "boom" none none)) = "wrapped: boom" ∧
    (Status.mk 2 "boom" []).message ≠ "wrapped: boom" := by
  exact ⟨rfl, rfl, by decide⟩

/-- Claim C7: an error wrapped exactly once around a well-formed
status-carrying error (one exposing `GRPCStatus()` with a non-OK code)
translates to an error whose status code equals the code of the carried
status, for every wrapper configuration — hence in both development and
production mode. -/
theorem C7_roundtrip_code (w : grpcErrorWrapper) (pre : String) (inner : GoErr) (st : Status)
    (hst : grpcStatusOf inner = some st) (hcode : st.code ≠ 0) :
    statusCodeOf (w.GRPCError (.wrap pre inner)).1 = some st.code := by
  have hnc : inner ≠ GoErr.canceled := by rintro rfl; simp [grpcStatusOf] at hst
  have hnd : inner ≠ GoErr.deadlineExceeded := by rintro rfl; simp [grpcStatusOf] at hst
  have hun : unwrapErr (GoErr.wrap pre inner) = inner := rfl
  have hfe : fromError inner = (st, true) := by simp [fromError, hst]
  rcases hds : detailsOf inner with _ | ds <;>
    by_cases hdev : w.development <;>
    simp [grpcErrorWrapper.GRPCError, grpcErrorBody, hun, hnc, hnd, hfe, hds, hdev,
      withDetails, statusError, Status.err, statusCodeOf, hcode]

/-- Witness for C7: a wrapped NotFound (code 5) status error keeps code 5
through the interceptor in production mode. -/
theorem C7_roundtrip_witness :
    statusCodeOf ((grpcErrorWrapper.GRPCError ⟨false, .custom "internal server error" none none⟩
        (.wrap "find user: " (.statusErr ⟨5, "user not found", []⟩))).1)
      = some (5 : Nat) :=
  C7_roundtrip_code ⟨false, .custom "internal server error" none none⟩ "find user: "
    (.statusErr ⟨5, "user not found", []⟩) ⟨5, "user not found", []⟩ rfl (by decide)

/-- Claim C8: when the wrapped handler returns a nil error, the unary
interceptor returns the handler response unchanged together with the nil
error, emits zero log entries, and its result does not depend on the
error-translation configuration. -/
theorem C8_nil_error_passthrough {α : Type} (development : Bool) (internalServerErr : GoErr)
    (res : Option α) :
    UnaryServerInterceptor development internalServerErr res none = ((res, none), []) := rfl

/-- Claim C9: the error the interceptor classifies and translates is
obtained by unwrapping exactly one level: the immediate cause when
`errors.Unwrap` yields one, the error itself otherwise; and `GRPCError`
is exactly its body applied to that one-level unwrap, so deeper causes
are never consulted for classification. -/
theorem C9_one_level_unwrap :
    (∀ err cause, errorsUnwrap err = some cause → unwrapErr err = cause) ∧
    (∀ err, errorsUnwrap err = none → unwrapErr err = err) ∧
    (∀ (w : grpcErrorWrapper) (err : GoErr),
      w.GRPCError err = grpcErrorBody w err (unwrapErr err)) := by
  refine ⟨?_, ?_, fun _ _ => rfl⟩
  · intro err cause h; simp [unwrapErr, h]
  · intro err h; simp [unwrapErr, h]

/-- Witness for C9: a once-wrapped error unwraps to its immediate cause. -/
theorem C9_one_level_unwrap_witness :
    unwrapErr (.wrap "ctx: " (.custom "inner" none none)) = .custom "inner" none none :=
  C9_one_level_unwrap.1 (.wrap "ctx: " (.custom "inner" none none))
    (.custom "inner" none none) rfl

/-- Claim C10: `GetAppMode` returns `Development` for every string that is
not a recognized mode name, and the corresponding mode for each recognized
name. -/
theorem C10_GetAppMode_default (s : String)
    (h1 : s ≠ "Development") (h2 : s ≠ "Production") :
    GetAppMode s = AppMode.Development ∧
    GetAppMode "Development" = AppMode.Development ∧
    GetAppMode "Production" = AppMode.Production := by
  refine ⟨?_, rfl, rfl⟩
  simp [GetAppMode, AppModeString, h1, h2]

/-- Witness for C10 at the unrecognized string "Staging". -/
theorem C10_GetAppMode_witness :
    GetAppMode "Staging" = AppMode.Development ∧
    GetAppMode "Development" = AppMode.Development ∧
    GetAppMode "Production" = AppMode.Production :=
  C10_GetAppMode_default "Staging" (by decide) (by decide)
